import Mathlib

/-!
Verification of the ShakeMap-to-HAZUS conversion pipeline
(`src/Shakemap-to-HAZUS.py`).

The script's terminal logic is four steps chained by direct calls:
`extract_file` (unzip the archive into `output_dir\name\shape`),
`project_fcs` (reproject the recognized ground-motion shapefiles to
EPSG:4269), `copy_template` (shutil.copytree of the bundled template
into `output_dir\name\Data`), and `rename_template` (os.chdir into the
Data directory, then rename every `*.mdb` file by replacing the literal
substring `Template_Shakemap` with the sanitized earthquake name).

This file is a shallow embedding of those steps: file contents are
abstract byte lists, directories are association lists from path
strings to contents, and the external libraries (`zipfile`, `arcpy`,
`shutil`, `os`) are modelled by their documented effects, with boolean
fault parameters standing for the environment-dependent failures they
can raise.
-/

namespace ShakemapToHazus

/-- Abstract file contents: a list of bytes. -/
abbrev Bytes := List Nat

/-- The Python exceptions the script can raise, grouped by the
pipeline step they abort (the spec's four error kinds), plus the
`NameError` raised when `outpath` is referenced unbound. -/
inductive PyErr where
  /-- Python `IOError`/`BadZipfile` from `open`/`zipfile.ZipFile`/`extract`. -/
  | extractionError
  /-- Python `NameError`: local variable `outpath` referenced before assignment
  (archive with zero members). -/
  | nameError
  /-- An `arcpy` `ExecuteError` from `arcpy.management.Project`. -/
  | reprojectionError
  /-- Python `OSError` from `os.makedirs` inside `shutil.copytree` (destination
  already exists), or `shutil.Error` collecting per-file copy failures. -/
  | templateCopyError
  /-- Python `OSError` from `os.rename`. -/
  | renameError
deriving DecidableEq, Repr

/-! ## Python string primitives

`str.endswith`, the `in` substring test, and `str.replace` (replace all
non-overlapping occurrences, scanning left to right), modelled on the
character list underlying a `String`.  `replFuel` uses an explicit fuel
argument (instantiated with the string length) so that it is structural
recursion and reduces inside the kernel. -/

/-- Python `s.endswith(suffix)`. -/
def strEndsWith (s suffix : String) : Bool :=
  suffix.data.isSuffixOf s.data

/-- Does `pat` occur as a contiguous sublist?  Python `pat in s`. -/
def containsSub (pat : List Char) : List Char → Bool
  | [] => pat.isEmpty
  | c :: rest => pat.isPrefixOf (c :: rest) || containsSub pat rest

/-- Python `pat in s` on strings. -/
def pyContains (s pat : String) : Bool :=
  containsSub pat.data s.data

/-- One pass of Python `str.replace`: at each position, if `pat` starts
here, emit `repl` and skip over the match, else keep the character and
move on.  `fuel` bounds the recursion depth; callers pass the length of
the list, which always suffices. -/
def replFuel (pat repl : List Char) : Nat → List Char → List Char
  | _, [] => []
  | 0, l => l
  | fuel + 1, c :: rest =>
    if pat.isPrefixOf (c :: rest) then
      repl ++ replFuel pat repl fuel (rest.drop (pat.length - 1))
    else
      c :: replFuel pat repl fuel rest

/-- Python `s.replace(pat, repl)` (all occurrences, left to right,
non-overlapping). -/
def pyReplace (s pat repl : String) : String :=
  ⟨replFuel pat.data repl.data s.data.length s.data⟩

/-- Scenario identifier derivation, line 120 of the script:
`self.earthquake_name.replace(" ", "_")`. -/
def sanitize (s : String) : String :=
  pyReplace s " " "_"

/-! ### Lemmas about the string primitives -/

theorem replFuel_nil (pat repl : List Char) (fuel : Nat) :
    replFuel pat repl fuel [] = [] := by
  cases fuel <;> rfl

/-- If `pat` does not occur in `l`, replacing it changes nothing. -/
theorem replFuel_of_not_contains (pat repl : List Char) :
    ∀ (fuel : Nat) (l : List Char), l.length ≤ fuel →
      containsSub pat l = false → replFuel pat repl fuel l = l := by
  intro fuel
  induction fuel with
  | zero =>
    intro l hlen _
    cases l with
    | nil => rfl
    | cons c rest => simp at hlen
  | succ n ih =>
    intro l hlen hcon
    cases l with
    | nil => rfl
    | cons c rest =>
      simp only [containsSub, Bool.or_eq_false_iff] at hcon
      simp only [replFuel, hcon.1, Bool.false_eq_true, if_false]
      have : rest.length ≤ n := by
        simp at hlen; omega
      rw [ih rest this hcon.2]

theorem pyReplace_of_not_contains (s pat repl : String)
    (h : pyContains s pat = false) : pyReplace s pat repl = s := by
  unfold pyReplace
  rw [replFuel_of_not_contains pat.data repl.data s.data.length s.data
    (Nat.le_refl _) h]

/-- Replacing a single-character pattern by a single-character
replacement is a character map. -/
theorem replFuel_single (p q : Char) :
    ∀ (fuel : Nat) (l : List Char), l.length ≤ fuel →
      replFuel [p] [q] fuel l = l.map (fun c => if c = p then q else c) := by
  intro fuel
  induction fuel with
  | zero =>
    intro l hlen
    cases l with
    | nil => rfl
    | cons c rest => simp at hlen
  | succ n ih =>
    intro l hlen
    cases l with
    | nil => rfl
    | cons c rest =>
      have hr : rest.length ≤ n := by
        simp at hlen; omega
      by_cases hc : c = p
      · subst hc
        have hpre : [c].isPrefixOf (c :: rest) = true := by
          simp [List.isPrefixOf]
        simp [replFuel, hpre, ih rest hr]
      · have hpre : ([p].isPrefixOf (c :: rest)) = false := by
          simp [List.isPrefixOf]
          exact fun h => absurd h.symm hc
        simp [replFuel, hpre, hc, ih rest hr]

/-- Sanitizing replaces every space by an underscore, characterwise. -/
theorem sanitize_eq_map (s : String) :
    sanitize s = ⟨s.data.map (fun c => if c = ' ' then '_' else c)⟩ := by
  unfold sanitize pyReplace
  rw [show (" " : String).data = [' '] from rfl,
    show ("_" : String).data = ['_'] from rfl,
    replFuel_single ' ' '_' s.data.length s.data (Nat.le_refl _)]

theorem sanitize_idem (s : String) : sanitize (sanitize s) = sanitize s := by
  rw [sanitize_eq_map s, sanitize_eq_map, List.map_map]
  congr 1
  apply List.map_congr_left
  intro c _
  by_cases hc : c = ' ' <;> simp [hc, Function.comp]

theorem sanitize_of_no_space (s : String)
    (h : s.data.contains ' ' = false) : sanitize s = s := by
  rw [sanitize_eq_map s]
  have hmap : s.data.map (fun c => if c = ' ' then '_' else c)
      = s.data.map id := by
    apply List.map_congr_left
    intro c hc
    have hne : ¬ (c = ' ') := by
      intro hcc
      subst hcc
      simp [List.contains_eq_any_beq] at h
      exact h hc
    simp [hne]
  rw [hmap, List.map_id]

/-! ## The four pipeline steps

File-system regions are association lists from path strings to byte
contents.  `setF` is a single file write (overwriting any previous file
at the same path), the effect of `zipfile.ZipFile.extract` on one
member. -/

/-- Write one file, overwriting a previous file at the same path. -/
def setF (l : List (String × Bytes)) (p : String) (b : Bytes) :
    List (String × Bytes) :=
  (p, b) :: l.filter (fun q => q.1 != p)

/-- Lines 126–128 of the script: the per-member extraction loop.  The
staging directory starts empty (the workspace is created fresh per
run); each member is written at its relative path inside the staging
directory.  `outpath` is a local of the loop body: the second component
records whether it has been assigned, which happens only when the loop
body runs at least once. -/
def extract_loop (archive : List (String × Bytes)) (outpath0 : String) :
    List (String × Bytes) × Option String :=
  archive.foldl (fun st m => (setF st.1 m.1 m.2, some outpath0)) ([], none)

/-- Lines 122–132 of the script (`extract_file` minus the name capture
and the tail call): open the zip (`zipOk = false` models
`IOError`/`BadZipfile`), run the extraction loop, then use `outpath`
(status-bar message, line 131, and the argument of `project_fcs`, line
132) — a `NameError` if the loop never ran. -/
def extract_file (zipOk : Bool) (archive : List (String × Bytes))
    (outpath0 : String) : Except PyErr (List (String × Bytes) × String) :=
  if zipOk then
    match (extract_loop archive outpath0).2 with
    | none => .error .nameError
    | some p => .ok ((extract_loop archive outpath0).1, p)
  else
    .error .extractionError

/-- Line 139: `arcpy.ListFeatureClasses()` with the workspace set to the
staging directory lists the shapefiles there (names with their `.shp`
extension). -/
def listFeatureClasses (staging : List (String × Bytes)) : List String :=
  (staging.map Prod.fst).filter (fun f => strEndsWith f ".shp")

/-- Line 142: `fc_name = fc[:-4]` — the scanned filename with its last
four characters removed. -/
def baseName (fc : String) : String :=
  ⟨fc.data.take (fc.data.length - 4)⟩

/-- Line 143: the four recognized ground-motion layer names. -/
def recognized : List String := ["pga", "pgv", "psa03", "psa10"]

/-- Line 141: `arcpy.SpatialReference(4269)` — the fixed target
coordinate system, geographic NAD83. -/
def out_sr : Nat := 4269

/-- Lines 142–145, one loop iteration: the `arcpy.management.Project`
call issued for a scanned filename, as `(source, output name, target
spatial reference)`, or `none` when the base name is not recognized and
the call is skipped. -/
def projectOne (fc : String) : Option (String × String × Nat) :=
  if baseName fc ∈ recognized then
    some (fc, baseName fc ++ "_GCS_NAD83.shp", out_sr)
  else
    none

/-- Lines 140–146: the `Project` calls issued over a directory
listing. -/
def project_calls (fcs : List String) : List (String × String × Nat) :=
  fcs.filterMap projectOne

/-- Lines 135–146 (`project_fcs` minus the tail call): scan the staging
directory, reproject each recognized layer, writing the output
shapefile alongside the originals.  `projBytes` abstracts the bytes the
external engine produces for a source layer; `projOk = false` models an
`arcpy` failure, which can only surface if at least one `Project` call
is issued. -/
def project_fcs (projOk : Bool) (projBytes : String → Bytes)
    (staging : List (String × Bytes)) :
    Except PyErr (List (String × Bytes)) :=
  let calls := project_calls (listFeatureClasses staging)
  if projOk = false ∧ calls ≠ [] then
    .error .reprojectionError
  else
    .ok (staging ++ calls.map (fun c => (c.2.1, projBytes c.1)))

/-- Lines 151–158 (`copy_template` minus the tail call), with
`shutil.copytree` modelled from its documented behaviour: it first
creates the destination directory with `os.makedirs`, which raises when
the destination already exists (so the copy is a fresh tree creation,
never a merge); per-file copy errors are collected and raised as
`shutil.Error`.  On success the template's files appear at their
relative paths under the destination. -/
def copy_template (dataDirExists : Bool) (copyOk : String → Bool)
    (template : List (String × Bytes)) :
    Except PyErr (List (String × Bytes)) :=
  if dataDirExists then
    .error .templateCopyError
  else if template.any (fun m => !(copyOk m.1)) then
    .error .templateCopyError
  else
    .ok template

/-- Lines 168–170, one loop iteration: a file ending in `.mdb` is
renamed by replacing the literal substring `Template_Shakemap` with the
earthquake name; any other file is left alone. -/
def renameOne (name : String) (f : String × Bytes) : String × Bytes :=
  if strEndsWith f.1 ".mdb" then
    (pyReplace f.1 "Template_Shakemap" name, f.2)
  else
    f

/-- Lines 168–170: the rename loop over the directory listing. -/
def rename_template (name : String) (files : List (String × Bytes)) :
    List (String × Bytes) :=
  files.map (renameOne name)

/-- Lines 163–171 (`rename_template` including its fault modes): the
`os.rename` calls run once per `.mdb` file, so an environment fault
(`renameOk = false`, e.g. the target name inaccessible) surfaces only
when some `.mdb` file is present.  The `os.chdir` side effect is
recorded by the pipeline (`convert`), which threads the process-wide
working directory. -/
def rename_step (renameOk : Bool) (name : String)
    (files : List (String × Bytes)) :
    Except PyErr (List (String × Bytes)) :=
  if renameOk = false ∧ files.any (fun f => strEndsWith f.1 ".mdb") then
    .error .renameError
  else
    .ok (rename_template name files)

/-! ## The pipeline -/

/-- The inputs of a run: what the presentation layer supplies (output
directory, raw earthquake name, archive path) together with the
environment facts the external libraries depend on (template contents,
pre-existence of the Data directory, fault switches, and the external
reprojection engine's output bytes). -/
structure Inputs where
  output_directory : String
  earthquake_name : String
  archive : List (String × Bytes)
  template : List (String × Bytes)
  projBytes : String → Bytes
  zipOk : Bool
  projOk : Bool
  dataDirExists : Bool
  copyOk : String → Bool
  renameOk : Bool

/-- The observable state a run builds up: the staging directory
(relative paths under `shape`), the absolute path `outpath` once bound,
the Data directory contents and path once the template is copied, and
the process-wide current working directory. -/
structure PState where
  staging : List (String × Bytes)
  outpath : Option String
  dataFiles : List (String × Bytes)
  dataPath : Option String
  cwd : Option String
deriving DecidableEq, Repr

/-- The state before any step has run. -/
def initState : PState :=
  { staging := []
    outpath := none
    dataFiles := []
    dataPath := none
    cwd := none }

/-- The four pipeline steps, in the order the script chains them. -/
inductive Step where
  | extract
  | reproject
  | templateCopy
  | rename
deriving DecidableEq, Repr

/-- The terminal result of a run: `done` after all four steps, or
`failed` naming the step whose exception aborted the run, with the
state built by the steps already completed. -/
inductive ConvResult where
  | done : PState → ConvResult
  | failed : Step → PState → ConvResult
deriving DecidableEq, Repr

/-- Line 127: `output_directory + "\\" + earthquake_name + "\shape"`. -/
def outpathOf (i : Inputs) : String :=
  i.output_directory ++ "\\" ++ sanitize i.earthquake_name ++ "\\shape"

/-- Line 157: `output_directory + "\\" + earthquake_name + "\Data"`. -/
def dataDirOf (i : Inputs) : String :=
  i.output_directory ++ "\\" ++ sanitize i.earthquake_name ++ "\\Data"

/-- The whole pipeline, lines 114–171: the `Go!` handler.  The
sanitized earthquake name is computed once, at entry (lines 118–120),
and threaded unchanged into every later step.  Each step's method ends
by calling the next; an exception anywhere aborts the run with the
state accumulated so far (no retry, no rollback).  The rename step
changes the process working directory (line 167) before its loop and
never restores it. -/
def convert (i : Inputs) : ConvResult :=
  let name := sanitize i.earthquake_name
  let outpath0 := i.output_directory ++ "\\" ++ name ++ "\\shape"
  match extract_file i.zipOk i.archive outpath0 with
  | .error _ => .failed .extract initState
  | .ok (staging, op) =>
    let s1 : PState :=
      { initState with staging := staging, outpath := some op }
    match project_fcs i.projOk i.projBytes staging with
    | .error _ => .failed .reproject s1
    | .ok staging2 =>
      let s2 : PState := { s1 with staging := staging2 }
      match copy_template i.dataDirExists i.copyOk i.template with
      | .error _ => .failed .templateCopy s2
      | .ok dataFiles =>
        let dataPath := i.output_directory ++ "\\" ++ name ++ "\\Data"
        let s3 : PState :=
          { s2 with
            dataFiles := dataFiles
            dataPath := some dataPath
            cwd := some dataPath }
        match rename_step i.renameOk name dataFiles with
        | .error _ => .failed .rename s3
        | .ok renamed => .done { s3 with dataFiles := renamed }

/-- The process-wide current working directory recorded in a terminal
result. -/
def resultCwd : ConvResult → Option String
  | .done s => s.cwd
  | .failed _ s => s.cwd

/-! ## Concrete runs used to exercise the theorems -/

/-- A concrete fault-free run: scenario `Quake 1`, an archive holding a
`pga` shapefile-set, the bundled template with its marker database
file. -/
def i0 : Inputs :=
  { output_directory := "C:\\out"
    earthquake_name := "Quake 1"
    archive := [("pga.shp", [1]), ("pga.dbf", [2])]
    template := [("Template_Shakemap.mdb", [7]), ("readme.txt", [8])]
    projBytes := fun _ => [9]
    zipOk := true
    projOk := true
    dataDirExists := false
    copyOk := fun _ => true
    renameOk := true }

/-- The terminal state of the fault-free run `i0`. -/
def st0 : PState :=
  { staging := [("pga.dbf", [2]), ("pga.shp", [1]),
      ("pga_GCS_NAD83.shp", [9])]
    outpath := some "C:\\out\\Quake_1\\shape"
    dataFiles := [("Quake_1.mdb", [7]), ("readme.txt", [8])]
    dataPath := some "C:\\out\\Quake_1\\Data"
    cwd := some "C:\\out\\Quake_1\\Data" }

/-- The run `i0` with the scenario's `Data` directory already present,
so the template copy fails. -/
def iCopyFail : Inputs := { i0 with dataDirExists := true }

/-- The run `i0` with an empty archive. -/
def iEmpty : Inputs := { i0 with archive := [] }

/-! ## Helper lemmas about the extraction loop -/

theorem extract_loop_go_snd (p : String) :
    ∀ (archive acc : List (String × Bytes)) (o : Option String),
      (archive.foldl (fun st m => (setF st.1 m.1 m.2, some p)) (acc, o)).2
        = if archive = [] then o else some p := by
  intro archive
  induction archive with
  | nil => intro acc o; rfl
  | cons m rest ih =>
    intro acc o
    simp only [List.foldl_cons, ih, List.cons_ne_nil, if_false]
    by_cases hr : rest = [] <;> simp [hr]

theorem extract_loop_go_fst (p : String) :
    ∀ (archive acc : List (String × Bytes)) (o : Option String),
      (archive.map Prod.fst).Nodup →
      (∀ m ∈ archive, ∀ q ∈ acc, q.1 ≠ m.1) →
      (archive.foldl (fun st m => (setF st.1 m.1 m.2, some p)) (acc, o)).1
        = archive.reverse ++ acc := by
  intro archive
  induction archive with
  | nil => intro acc o _ _; rfl
  | cons m rest ih =>
    intro acc o hnd hdisj
    simp only [List.map_cons, List.nodup_cons] at hnd
    have hsetF : setF acc m.1 m.2 = m :: acc := by
      unfold setF
      rw [Prod.mk.eta, List.filter_eq_self.mpr]
      intro q hq
      simpa using hdisj m (List.mem_cons_self m rest) q hq
    simp only [List.foldl_cons, hsetF]
    rw [ih (m :: acc) (some p) hnd.2]
    · simp
    · intro a ha q hq
      rcases List.mem_cons.mp hq with hqm | hqa
      · subst hqm
        intro heq
        apply hnd.1
        rw [heq]
        exact List.mem_map_of_mem Prod.fst ha
      · exact hdisj a (List.mem_cons_of_mem m ha) q hqa

/-- The extraction loop writes exactly the archive members (with
distinct member paths), and binds `outpath` iff it ran at least once. -/
theorem extract_loop_eq (archive : List (String × Bytes)) (p : String)
    (h : (archive.map Prod.fst).Nodup) :
    extract_loop archive p
      = (archive.reverse, if archive = [] then none else some p) := by
  unfold extract_loop
  refine Prod.ext ?_ ?_
  · rw [extract_loop_go_fst p archive [] none h (by simp)]
    simp
  · rw [extract_loop_go_snd p archive [] none]

/-- With at least one member (and distinct member paths), extraction
succeeds, returns the bound `outpath`, and the staging directory holds
exactly the archive members. -/
theorem extract_file_ok (archive : List (String × Bytes)) (p : String)
    (h1 : (archive.map Prod.fst).Nodup) (h2 : archive ≠ []) :
    extract_file true archive p = .ok (archive.reverse, p) := by
  unfold extract_file
  rw [if_pos rfl]
  simp only [extract_loop_eq archive p h1, h2, if_false]

/-- An extraction that returns at all returns the `outpath` it was
given (the staging directory path computed from the sanitized name). -/
theorem extract_file_ok_path (zipOk : Bool)
    (archive : List (String × Bytes)) (p0 p : String)
    (st : List (String × Bytes))
    (h : extract_file zipOk archive p0 = .ok (st, p)) : p = p0 := by
  unfold extract_file at h
  by_cases hz : zipOk
  · rw [if_pos hz] at h
    rcases hsnd : (extract_loop archive p0).2 with _ | q
    · rw [hsnd] at h; exact absurd h (by simp)
    · rw [hsnd] at h
      have hq : q = p0 := by
        have := extract_loop_go_snd p0 archive [] none
        unfold extract_loop at hsnd
        rw [this] at hsnd
        by_cases ha : archive = []
        · rw [if_pos ha] at hsnd; exact absurd hsnd (by simp)
        · rw [if_neg ha] at hsnd
          exact (Option.some.injEq _ _ ▸ hsnd).symm
      simp only [Except.ok.injEq, Prod.mk.injEq] at h
      rw [← h.2, hq]
  · rw [if_neg hz] at h
    exact absurd h (by simp)

/-- Renaming the template database file embeds the earthquake name:
`Template_Shakemap.mdb` becomes `<name>.mdb`. -/
theorem pyReplace_template_mdb (name : String) :
    pyReplace "Template_Shakemap.mdb" "Template_Shakemap" name
      = name ++ ".mdb" := by
  apply String.ext
  rw [String.data_append]
  rfl

/-- If no file in the listing is a `.mdb` file containing the literal
marker, the rename loop leaves every filename unchanged. -/
theorem rename_template_id (name : String)
    (files : List (String × Bytes))
    (h : ∀ f ∈ files, strEndsWith f.1 ".mdb" = true →
      pyContains f.1 "Template_Shakemap" = false) :
    rename_template name files = files := by
  unfold rename_template
  have : files.map (renameOne name) = files.map id := by
    apply List.map_congr_left
    intro f hf
    unfold renameOne
    by_cases he : strEndsWith f.1 ".mdb"
    · rw [if_pos he, pyReplace_of_not_contains f.1 _ name (h f hf he)]
      exact Prod.mk.eta
    · rw [if_neg he]
      rfl
  rw [this, List.map_id]

/-- Every recognized layer name has at most five characters. -/
theorem recognized_short (b : String) (h : b ∈ recognized) :
    b.data.length ≤ 5 := by
  simp only [recognized, List.mem_cons, List.not_mem_nil, or_false] at h
  rcases h with h | h | h | h <;> subst h <;> decide

/-- Characterization of a completed run: all four steps succeeded, in
order, and the final state records the staging directory, the Data
directory contents after the rename, and the changed working
directory. -/
theorem convert_done_iff (i : Inputs) (st : PState) :
    convert i = .done st ↔
    ∃ staging p staging2 dataFiles renamed,
      extract_file i.zipOk i.archive (outpathOf i) = .ok (staging, p) ∧
      project_fcs i.projOk i.projBytes staging = .ok staging2 ∧
      copy_template i.dataDirExists i.copyOk i.template = .ok dataFiles ∧
      rename_step i.renameOk (sanitize i.earthquake_name) dataFiles
        = .ok renamed ∧
      st = { staging := staging2
             outpath := some p
             dataFiles := renamed
             dataPath := some (dataDirOf i)
             cwd := some (dataDirOf i) } := by
  unfold convert outpathOf dataDirOf
  cases h1 : extract_file i.zipOk i.archive
      (i.output_directory ++ "\\" ++ sanitize i.earthquake_name
        ++ "\\shape") with
  | error e => simp [h1]
  | ok v =>
    obtain ⟨staging, p⟩ := v
    cases h2 : project_fcs i.projOk i.projBytes staging with
    | error e => simp [h1, h2]
    | ok staging2 =>
      cases h3 : copy_template i.dataDirExists i.copyOk i.template with
      | error e => simp [h1, h2, h3]
      | ok dataFiles =>
        cases h4 : rename_step i.renameOk (sanitize i.earthquake_name)
            dataFiles with
        | error e => simp [h1, h2, h3, h4]
        | ok renamed =>
          simp only [h1, h2, h3, h4]
          constructor
          · intro hdone
            injection hdone with hst
            exact ⟨staging, p, staging2, dataFiles, renamed, rfl, h2, rfl, h4,
              hst.symm⟩
          · rintro ⟨s', p', s2', df', r', he, hp, hc, hr, hst⟩
            simp only [Except.ok.injEq, Prod.mk.injEq] at he hc
            obtain ⟨hs, hpp⟩ := he
            subst hs
            subst hpp
            subst hc
            rw [h2] at hp
            rw [h4] at hr
            simp only [Except.ok.injEq] at hp hr
            subst hp
            subst hr
            rw [hst]

/-- If the run fails inside the rename step, the working directory has
already been changed to the Data directory (the `os.chdir` runs before
the rename loop). -/
theorem convert_failed_rename (i : Inputs) (st : PState)
    (h : convert i = .failed .rename st) :
    st.cwd = some (dataDirOf i) := by
  unfold convert at h
  cases h1 : extract_file i.zipOk i.archive
      (i.output_directory ++ "\\" ++ sanitize i.earthquake_name
        ++ "\\shape") with
  | error e => simp [h1] at h
  | ok v =>
    obtain ⟨staging, p⟩ := v
    cases h2 : project_fcs i.projOk i.projBytes staging with
    | error e => simp [h1, h2] at h
    | ok staging2 =>
      cases h3 : copy_template i.dataDirExists i.copyOk i.template with
      | error e => simp [h1, h2, h3] at h
      | ok dataFiles =>
        cases h4 : rename_step i.renameOk (sanitize i.earthquake_name)
            dataFiles with
        | error e =>
          simp only [h1, h2, h3, h4] at h
          injection h with hstep hst
          rw [← hst]
          rfl
        | ok renamed => simp [h1, h2, h3, h4] at h

/-! ## The claims -/

/-- C1: the rename step replaces only the literal, case-sensitive
substring `Template_Shakemap` in the names of matching database files
in the immediate contents of the target directory: every file whose
name does not contain that substring is mapped to itself, and when zero
files match, the step succeeds as a no-op on the directory listing
without raising any error. -/
theorem rename_touches_only_matching (name : String)
    (files : List (String × Bytes)) :
    (∀ f ∈ files, pyContains f.1 "Template_Shakemap" = false →
      renameOne name f = f) ∧
    ((∀ f ∈ files, strEndsWith f.1 ".mdb" = true →
        pyContains f.1 "Template_Shakemap" = false) →
      rename_step true name files = .ok files) := by
  constructor
  · intro f _ hc
    unfold renameOne
    by_cases he : strEndsWith f.1 ".mdb"
    · rw [if_pos he, pyReplace_of_not_contains f.1 _ name hc]
    · rw [if_neg he]
  · intro hall
    unfold rename_step
    rw [if_neg (by simp), rename_template_id name files hall]

/-- Witness for C1 at a concrete listing: a database file without the
marker is untouched, and a listing with no matching database file
round-trips unchanged without an error. -/
theorem rename_touches_only_matching_witness :
    renameOne "Quake_1" ("Other.mdb", [1]) = ("Other.mdb", [1]) ∧
    rename_step true "Quake_1"
        [("Other.mdb", [1]), ("Template_Shakemap.txt", [2])]
      = .ok [("Other.mdb", [1]), ("Template_Shakemap.txt", [2])] :=
  ⟨(rename_touches_only_matching "Quake_1" [("Other.mdb", [1])]).1
      ("Other.mdb", [1]) (by decide) (by decide),
   (rename_touches_only_matching "Quake_1"
      [("Other.mdb", [1]), ("Template_Shakemap.txt", [2])]).2 (by decide)⟩

/-- C2 (counterexample): for an archive with zero members the
extraction step does not succeed at all — the loop-local `outpath` is
used after the loop and raises a `NameError` — so there is no
successful extraction leaving an empty staging directory, contrary to
the claim's `N = 0` case. -/
theorem extract_empty_archive_not_ok :
    extract_file true [] "C:\\out\\Quake_1\\shape"
      = .error .nameError := rfl

/-- C2 (amended): for any archive with `N ≥ 1` members at distinct
relative paths, the extraction step succeeds and the staging directory
contains exactly `N` files, one at each member's relative path, each
byte-identical to the corresponding archive member; for `N = 0` the
step raises a `NameError` instead. -/
theorem extraction_exact (archive : List (String × Bytes)) (p : String)
    (h1 : (archive.map Prod.fst).Nodup) (h2 : archive ≠ []) :
    ∃ staging, extract_file true archive p = .ok (staging, p) ∧
      staging.length = archive.length ∧
      (∀ m, m ∈ staging ↔ m ∈ archive) := by
  refine ⟨archive.reverse, extract_file_ok archive p h1 h2,
    List.length_reverse archive, ?_⟩
  intro m
  exact List.mem_reverse

/-- Witness for C2's amended statement on a two-member archive. -/
theorem extraction_exact_witness :
    ([("pga.shp", ([1] : Bytes)), ("pga.dbf", [2])].map Prod.fst).Nodup ∧
    ∃ staging,
      extract_file true [("pga.shp", [1]), ("pga.dbf", [2])] "P"
        = .ok (staging, "P") ∧
      staging.length = [("pga.shp", ([1] : Bytes)), ("pga.dbf", [2])].length ∧
      (∀ m, m ∈ staging ↔ m ∈ [("pga.shp", ([1] : Bytes)), ("pga.dbf", [2])]) :=
  ⟨by decide,
   extraction_exact [("pga.shp", [1]), ("pga.dbf", [2])] "P"
     (by decide) (by decide)⟩

/-- C3: scenario identifier derivation replaces every space with an
underscore; it is total and idempotent, a name with no spaces is
unchanged, and in a completed run the same identifier string appears in
the shape-directory path, the Data-directory path, and the renamed
database filename. -/
theorem scenario_identifier_consistent :
    (∀ s, sanitize (sanitize s) = sanitize s) ∧
    (∀ s, s.data.contains ' ' = false → sanitize s = s) ∧
    sanitize "El Mayor 2010" = "El_Mayor_2010" ∧
    (∀ i st, convert i = .done st →
      st.outpath = some (i.output_directory ++ "\\"
          ++ sanitize i.earthquake_name ++ "\\shape") ∧
      st.dataPath = some (i.output_directory ++ "\\"
          ++ sanitize i.earthquake_name ++ "\\Data") ∧
      ∀ b, ("Template_Shakemap.mdb", b) ∈ i.template →
        (sanitize i.earthquake_name ++ ".mdb", b) ∈ st.dataFiles) := by
  refine ⟨sanitize_idem, sanitize_of_no_space, by decide, ?_⟩
  intro i st h
  rw [convert_done_iff] at h
  obtain ⟨staging, p, staging2, dataFiles, renamed, he, hp, hc, hr, hst⟩ := h
  have hpp : p = outpathOf i := extract_file_ok_path _ _ _ _ _ he
  subst hst
  refine ⟨by rw [hpp]; rfl, rfl, ?_⟩
  intro b hb
  have hdf : dataFiles = i.template := by
    unfold copy_template at hc
    by_cases hd : i.dataDirExists
    · rw [if_pos hd] at hc
      exact absurd hc (by simp)
    · rw [if_neg hd] at hc
      by_cases ha : i.template.any (fun m => !(i.copyOk m.1))
      · rw [if_pos ha] at hc
        exact absurd hc (by simp)
      · rw [if_neg ha] at hc
        simpa using hc.symm
  unfold rename_step at hr
  by_cases hrc : i.renameOk = false
      ∧ dataFiles.any (fun f => strEndsWith f.1 ".mdb")
  · rw [if_pos hrc] at hr
    exact absurd hr (by simp)
  · rw [if_neg hrc] at hr
    have hren : renamed
        = rename_template (sanitize i.earthquake_name) dataFiles := by
      simpa using hr.symm
    show (sanitize i.earthquake_name ++ ".mdb", b) ∈ renamed
    rw [hren]
    unfold rename_template
    have hone : renameOne (sanitize i.earthquake_name)
        ("Template_Shakemap.mdb", b)
        = (sanitize i.earthquake_name ++ ".mdb", b) := by
      unfold renameOne
      rw [if_pos (show strEndsWith "Template_Shakemap.mdb" ".mdb" = true
        by decide), pyReplace_template_mdb]
    rw [← hone]
    exact List.mem_map_of_mem _ (hdf ▸ hb)

/-- Witness for C3: idempotence and the no-space case at concrete
names, and the three appearances of the identifier in the terminal
state of the concrete run `i0`. -/
theorem scenario_identifier_consistent_witness :
    sanitize (sanitize "El Mayor 2010") = sanitize "El Mayor 2010" ∧
    sanitize "psa03" = "psa03" ∧
    (st0.outpath = some ("C:\\out" ++ "\\" ++ sanitize "Quake 1"
        ++ "\\shape") ∧
     st0.dataPath = some ("C:\\out" ++ "\\" ++ sanitize "Quake 1"
        ++ "\\Data") ∧
     ∀ b, ("Template_Shakemap.mdb", b) ∈ i0.template →
       (sanitize "Quake 1" ++ ".mdb", b) ∈ st0.dataFiles) :=
  ⟨scenario_identifier_consistent.1 "El Mayor 2010",
   scenario_identifier_consistent.2.1 "psa03" (by decide),
   scenario_identifier_consistent.2.2.2 i0 st0 (by decide)⟩

/-- C4: for every scanned feature-collection file whose derived base
name is exactly one of `pga`, `pgv`, `psa03`, `psa10`, the reprojection
step issues a `Project` call with the fixed target EPSG:4269 and writes
the new feature-collection file `<base>_GCS_NAD83.shp` into the same
directory listing. -/
theorem project_writes_recognized (staging : List (String × Bytes))
    (projBytes : String → Bytes) (fc : String)
    (h1 : fc ∈ listFeatureClasses staging)
    (h2 : baseName fc ∈ recognized) :
    (fc, baseName fc ++ "_GCS_NAD83.shp", 4269)
        ∈ project_calls (listFeatureClasses staging) ∧
    ∃ w, project_fcs true projBytes staging = .ok w ∧
      (baseName fc ++ "_GCS_NAD83.shp", projBytes fc) ∈ w := by
  have hcall : (fc, baseName fc ++ "_GCS_NAD83.shp", 4269)
      ∈ project_calls (listFeatureClasses staging) := by
    apply List.mem_filterMap.mpr
    refine ⟨fc, h1, ?_⟩
    unfold projectOne out_sr
    rw [if_pos h2]
  refine ⟨hcall,
    staging ++ (project_calls (listFeatureClasses staging)).map
      (fun c => (c.2.1, projBytes c.1)), ?_, ?_⟩
  · unfold project_fcs
    rw [if_neg (by simp)]
  · apply List.mem_append_right
    apply List.mem_map.mpr
    exact ⟨_, hcall, rfl⟩

/-- Witness for C4: a staging directory holding `pga.shp`. -/
theorem project_writes_recognized_witness :
    ("pga.shp", baseName "pga.shp" ++ "_GCS_NAD83.shp", 4269)
        ∈ project_calls (listFeatureClasses [("pga.shp", [1])]) ∧
    ∃ w, project_fcs true (fun _ => [9]) [("pga.shp", [1])] = .ok w ∧
      (baseName "pga.shp" ++ "_GCS_NAD83.shp", [9]) ∈ w :=
  project_writes_recognized [("pga.shp", [1])] (fun _ => [9]) "pga.shp"
    (by decide) (by decide)

/-- C5: a scanned file whose base name is not one of the four
recognized layer names triggers no `Project` call (no output file is
written for it), its own entry appears untouched in the step's output,
and a directory with only unrecognized base names makes the step a
total no-op that raises no error. -/
theorem project_skips_unrecognized (staging : List (String × Bytes))
    (projBytes : String → Bytes) (fc : String)
    (h1 : baseName fc ∉ recognized) :
    projectOne fc = none ∧
    (∀ c ∈ project_calls (listFeatureClasses staging), c.1 ≠ fc) ∧
    (∀ projOk b w, (fc, b) ∈ staging →
      project_fcs projOk projBytes staging = .ok w → (fc, b) ∈ w) ∧
    ((∀ g ∈ listFeatureClasses staging, baseName g ∉ recognized) →
      ∀ projOk, project_fcs projOk projBytes staging = .ok staging) := by
  have hnone : projectOne fc = none := by
    unfold projectOne
    rw [if_neg h1]
  refine ⟨hnone, ?_, ?_, ?_⟩
  · intro c hc hcfc
    obtain ⟨g, hg, hgc⟩ := List.mem_filterMap.mp hc
    unfold projectOne at hgc
    by_cases hr : baseName g ∈ recognized
    · rw [if_pos hr] at hgc
      have hcc := Option.some.inj hgc
      apply h1
      rw [← hcfc, ← hcc]
      exact hr
    · rw [if_neg hr] at hgc
      exact absurd hgc (by simp)
  · intro projOk b w hb hw
    unfold project_fcs at hw
    by_cases hcond : projOk = false
        ∧ project_calls (listFeatureClasses staging) ≠ []
    · rw [if_pos hcond] at hw
      exact absurd hw (by simp)
    · rw [if_neg hcond] at hw
      simp only [Except.ok.injEq] at hw
      rw [← hw]
      exact List.mem_append_left _ hb
  · intro hall projOk
    have hnil : project_calls (listFeatureClasses staging) = [] := by
      apply List.filterMap_eq_nil_iff.mpr
      intro g hg
      unfold projectOne
      rw [if_neg (hall g hg)]
    unfold project_fcs
    rw [hnil, if_neg (by simp)]
    simp

/-- Witness for C5: a staging directory holding only `pgb.shp`, whose
base name is not recognized: no call is issued and the step (even with
the fault switch set) succeeds unchanged. -/
theorem project_skips_unrecognized_witness :
    projectOne "pgb.shp" = none ∧
    project_fcs false (fun _ => [9]) [("pgb.shp", [1])]
      = .ok [("pgb.shp", [1])] :=
  ⟨(project_skips_unrecognized [("pgb.shp", [1])] (fun _ => [9])
      "pgb.shp" (by decide)).1,
   (project_skips_unrecognized [("pgb.shp", [1])] (fun _ => [9])
      "pgb.shp" (by decide)).2.2.2 (by decide) false⟩

/-- C6: template instantiation fails with the template-copy error both
when the target `Data` directory already exists before the copy (the
copy is a fresh tree creation, never a merge) and when any read or
write during the copy fails. -/
theorem copy_template_fresh_or_fail (dataDirExists : Bool)
    (copyOk : String → Bool) (template : List (String × Bytes)) :
    (dataDirExists = true →
      copy_template dataDirExists copyOk template
        = .error .templateCopyError) ∧
    ((∃ m ∈ template, copyOk m.1 = false) →
      copy_template dataDirExists copyOk template
        = .error .templateCopyError) := by
  constructor
  · intro h
    unfold copy_template
    rw [if_pos h]
  · intro h
    unfold copy_template
    by_cases hd : dataDirExists
    · rw [if_pos hd]
    · have hany : template.any (fun m => !(copyOk m.1)) = true := by
        obtain ⟨m, hm, hcm⟩ := h
        apply List.any_eq_true.mpr
        refine ⟨m, hm, ?_⟩
        rw [hcm]
        rfl
      rw [if_neg hd, if_pos hany]

/-- Witness for C6: a pre-existing Data directory, and a copy fault on
the template's database file. -/
theorem copy_template_fresh_or_fail_witness :
    copy_template true (fun _ => true) [("Template_Shakemap.mdb", [7])]
      = .error .templateCopyError ∧
    copy_template false (fun _ => false) [("Template_Shakemap.mdb", [7])]
      = .error .templateCopyError :=
  ⟨(copy_template_fresh_or_fail true (fun _ => true)
      [("Template_Shakemap.mdb", [7])]).1 rfl,
   (copy_template_fresh_or_fail false (fun _ => false)
      [("Template_Shakemap.mdb", [7])]).2
      ⟨("Template_Shakemap.mdb", [7]), by decide, rfl⟩⟩

/-- C7: the pipeline runs the four steps in the strict order extract,
reproject, template-copy, rename; the first step to fail yields the
`failed` terminal result naming exactly that step, with exactly the
artifacts of earlier completed steps in the terminal state (nothing is
removed or rolled back) and no later step executing; a `done` result
requires all four steps to have succeeded in order. -/
theorem pipeline_fail_fast (i : Inputs) :
    (∀ st, convert i = .done st ↔
      ∃ staging p staging2 dataFiles renamed,
        extract_file i.zipOk i.archive (outpathOf i) = .ok (staging, p) ∧
        project_fcs i.projOk i.projBytes staging = .ok staging2 ∧
        copy_template i.dataDirExists i.copyOk i.template
          = .ok dataFiles ∧
        rename_step i.renameOk (sanitize i.earthquake_name) dataFiles
          = .ok renamed ∧
        st = { staging := staging2
               outpath := some p
               dataFiles := renamed
               dataPath := some (dataDirOf i)
               cwd := some (dataDirOf i) }) ∧
    (∀ e, extract_file i.zipOk i.archive (outpathOf i) = .error e →
      convert i = .failed .extract initState) ∧
    (∀ st p e,
      extract_file i.zipOk i.archive (outpathOf i) = .ok (st, p) →
      project_fcs i.projOk i.projBytes st = .error e →
      convert i = .failed .reproject
        { initState with staging := st, outpath := some p }) ∧
    (∀ st p st2 e,
      extract_file i.zipOk i.archive (outpathOf i) = .ok (st, p) →
      project_fcs i.projOk i.projBytes st = .ok st2 →
      copy_template i.dataDirExists i.copyOk i.template = .error e →
      convert i = .failed .templateCopy
        { initState with staging := st2, outpath := some p }) ∧
    (∀ st p st2 df e,
      extract_file i.zipOk i.archive (outpathOf i) = .ok (st, p) →
      project_fcs i.projOk i.projBytes st = .ok st2 →
      copy_template i.dataDirExists i.copyOk i.template = .ok df →
      rename_step i.renameOk (sanitize i.earthquake_name) df
        = .error e →
      convert i = .failed .rename
        { staging := st2
          outpath := some p
          dataFiles := df
          dataPath := some (dataDirOf i)
          cwd := some (dataDirOf i) }) := by
  refine ⟨convert_done_iff i, ?_, ?_, ?_, ?_⟩
  · intro e h
    unfold outpathOf at h
    unfold convert
    simp only [h]
  · intro st p e h1 h2
    unfold outpathOf at h1
    unfold convert
    simp only [h1, h2]
  · intro st p st2 e h1 h2 h3
    unfold outpathOf at h1
    unfold convert
    simp only [h1, h2, h3]
  · intro st p st2 df e h1 h2 h3 h4
    unfold outpathOf at h1
    unfold convert
    simp only [h1, h2, h3, h4]
    unfold dataDirOf
    rfl

/-- Witness for C7: the run `iCopyFail` fails at the template-copy
step, keeping the extraction and reprojection artifacts and running
nothing later. -/
theorem pipeline_fail_fast_witness :
    convert iCopyFail = .failed .templateCopy
      { staging := [("pga.dbf", [2]), ("pga.shp", [1]),
          ("pga_GCS_NAD83.shp", [9])]
        outpath := some "C:\\out\\Quake_1\\shape"
        dataFiles := []
        dataPath := none
        cwd := none } :=
  (pipeline_fail_fast iCopyFail).2.2.2.1
    [("pga.dbf", [2]), ("pga.shp", [1])] "C:\\out\\Quake_1\\shape"
    [("pga.dbf", [2]), ("pga.shp", [1]), ("pga_GCS_NAD83.shp", [9])]
    .templateCopyError (by rfl) (by rfl) (by rfl)

/-- C8: the rename step changes the process-wide current working
directory to the target Data directory and never restores it: whenever
the pipeline leaves the rename step — on success, including the
zero-match no-op case, and even on a failure inside the rename loop —
the recorded working directory equals
`output_root\<scenario_identifier>\Data`. -/
theorem rename_chdir_persists (i : Inputs) :
    (∀ st, convert i = .done st → st.cwd = some (dataDirOf i)) ∧
    (∀ st, convert i = .failed .rename st →
      st.cwd = some (dataDirOf i)) := by
  constructor
  · intro st h
    rw [convert_done_iff] at h
    obtain ⟨staging, p, staging2, dataFiles, renamed, _, _, _, _, hst⟩ := h
    rw [hst]
  · intro st h
    exact convert_failed_rename i st h

/-- Witness for C8: after the fault-free run `i0` the working
directory is the scenario's Data directory. -/
theorem rename_chdir_persists_witness :
    st0.cwd = some (dataDirOf i0) :=
  (rename_chdir_persists i0).1 st0 (by decide)

/-- C9: for an archive with zero members the extraction step does not
succeed with an empty staging directory: `outpath` is bound only inside
the per-member loop, so with no members its use after the loop raises a
`NameError` and the pipeline fails at the extract step, before
reprojection. -/
theorem empty_archive_pipeline_fails (i : Inputs) (h : i.archive = [])
    (hz : i.zipOk = true) :
    (extract_loop i.archive (outpathOf i)).2 = none ∧
    extract_file i.zipOk i.archive (outpathOf i)
      = .error .nameError ∧
    convert i = .failed .extract initState := by
  have hsnd : (extract_loop i.archive (outpathOf i)).2 = none := by
    rw [h]
    rfl
  have hext : extract_file i.zipOk i.archive (outpathOf i)
      = .error .nameError := by
    rw [h, hz]
    rfl
  refine ⟨hsnd, hext, ?_⟩
  unfold outpathOf at hext
  unfold convert
  simp only [hext]

/-- Witness for C9: the concrete run with an empty archive. -/
theorem empty_archive_pipeline_fails_witness :
    convert iEmpty = .failed .extract initState :=
  (empty_archive_pipeline_fails iEmpty rfl rfl).2.2

/-- C10: reprojection never cascades on its own outputs: the base name
used for recognition is the scanned filename with its last four
characters removed, the base name derived from a produced output
`<b>_GCS_NAD83.shp` is `<b>_GCS_NAD83`, which is never in the
recognized set, and on any directory listing — hence also on repeated
scans — no issued `Project` call produces a file named
`<b>_GCS_NAD83_GCS_NAD83.shp`. -/
theorem reprojection_no_cascade :
    (∀ b : String,
      baseName (b ++ "_GCS_NAD83.shp") = b ++ "_GCS_NAD83") ∧
    (∀ b : String, baseName (b ++ "_GCS_NAD83.shp") ∉ recognized) ∧
    (∀ (fcs : List String) (b : String),
      ∀ c ∈ project_calls fcs,
        c.2.1 ≠ b ++ "_GCS_NAD83_GCS_NAD83.shp") := by
  have h14 : ("_GCS_NAD83.shp" : String).data.length = 14 := by decide
  have hbase : ∀ b : String,
      baseName (b ++ "_GCS_NAD83.shp") = b ++ "_GCS_NAD83" := by
    intro b
    apply String.ext
    show (b ++ "_GCS_NAD83.shp").data.take
        ((b ++ "_GCS_NAD83.shp").data.length - 4)
      = (b ++ "_GCS_NAD83").data
    rw [String.data_append, String.data_append, List.length_append, h14]
    have harith : b.data.length + 14 - 4 = b.data.length + 10 := by omega
    rw [harith, List.take_append_eq_append_take,
      List.take_of_length_le (by omega), Nat.add_sub_cancel_left]
    congr 1
  refine ⟨hbase, ?_, ?_⟩
  · intro b hmem
    rw [hbase b] at hmem
    have hlen := recognized_short _ hmem
    rw [String.data_append, List.length_append] at hlen
    have h10 : ("_GCS_NAD83" : String).data.length = 10 := by decide
    omega
  · intro fcs b c hc heq
    obtain ⟨g, _, hgc⟩ := List.mem_filterMap.mp hc
    unfold projectOne at hgc
    by_cases hr : baseName g ∈ recognized
    · rw [if_pos hr] at hgc
      have hcc := Option.some.inj hgc
      have hlb := recognized_short _ hr
      have hlen1 : c.2.1.data.length = (baseName g).data.length + 14 := by
        rw [← hcc]
        show ((baseName g ++ "_GCS_NAD83.shp").data.length)
          = (baseName g).data.length + 14
        rw [String.data_append, List.length_append, h14]
      have h24 : ("_GCS_NAD83_GCS_NAD83.shp" : String).data.length = 24 := by
        decide
      have hlen2 : c.2.1.data.length = b.data.length + 24 := by
        rw [heq, String.data_append, List.length_append, h24]
      omega
    · rw [if_neg hr] at hgc
      exact absurd hgc (by simp)

/-- Witness for C10: the output produced for `pga.shp` is not a
doubled-suffix name. -/
theorem reprojection_no_cascade_witness :
    ("pga.shp", "pga_GCS_NAD83.shp", 4269).2.1
      ≠ "pga" ++ "_GCS_NAD83_GCS_NAD83.shp" :=
  reprojection_no_cascade.2.2 ["pga.shp"] "pga"
    ("pga.shp", "pga_GCS_NAD83.shp", 4269) (by decide)

end ShakemapToHazus
